import Mathlib

/-!
Verification of the HVAC tonnage calculator (`hvac_tonnage_calculator.py`).

Numbers are modelled as exact rationals.  The external psychrometric
property library (`psychrolib`) is modelled as a record of black-box
functions that may fail (`Except`), mirroring how the spec treats it
as an external collaborator.  `calculate_cooling_load_run` is a line-by-line
embedding of `calculate_cooling_load` that additionally records the ordered
trace of library calls (including the `SetUnitSystem` global mutation) and
the debug log messages, so that temporal and logging claims can be stated.
-/

/-- The Python built-in `round`: round to the nearest integer, ties to even. -/
def pyRound (q : ℚ) : ℤ :=
  if Int.fract q < 1/2 then ⌊q⌋
  else if 1/2 < Int.fract q then ⌊q⌋ + 1
  else if ⌊q⌋ % 2 = 0 then ⌊q⌋ else ⌊q⌋ + 1

/-- The unit systems selectable in psychrolib. -/
inductive UnitSystem where
  | SI
  | IP
deriving DecidableEq, Repr

/-- One observable interaction with the psychrolib library, in call order. -/
inductive PsyCall where
  | setUnitSystem (sys : UnitSystem)
  | getHumRatioFromRelHum (t rh p : ℚ)
  | getMoistAirDensity (t w p : ℚ)
  | getMoistAirEnthalpy (t w : ℚ)
deriving DecidableEq, Repr

/-- A debug diagnostic emitted by `calculate_cooling_load` via `logger.debug`. -/
inductive LogMsg where
  | volumetricFlow (q : ℚ)
  | airDensity (q : ℚ)
  | massFlow (q : ℚ)
  | initialEnthalpy (q : ℚ)
  | finalEnthalpy (q : ℚ)
  | enthalpyDiff (q : ℚ)
  | coolingLoadKw (q : ℚ)
  | waterRemoval (q : ℚ)
deriving DecidableEq, Repr

/-- The logger handed to `calculate_cooling_load`; `setup_logger(debug)`
either enables the DEBUG level or leaves only INFO, so the only part of the
logging configuration visible to the calculation is whether debug records
are emitted. -/
structure Logger where
  debugEnabled : Bool
deriving DecidableEq, Repr

/-- `logger.debug(msg)`: the record is emitted iff the DEBUG level is on. -/
def Logger.debug (lg : Logger) (m : LogMsg) : List LogMsg :=
  if lg.debugEnabled then [m] else []

/-- The psychrolib property functions used by the program, as black-box
collaborators that may fail with an error of type `ε`. -/
structure Psychrolib (ε : Type) where
  GetHumRatioFromRelHum : ℚ → ℚ → ℚ → Except ε ℚ
  GetMoistAirDensity : ℚ → ℚ → ℚ → Except ε ℚ
  GetMoistAirEnthalpy : ℚ → ℚ → Except ε ℚ

/-- `calculate_cfm_from_room(volume_ft3, ach)` from the source: CFM from
room volume and air changes per hour. -/
def calculate_cfm_from_room (volume_ft3 ach : ℚ) : ℚ :=
  (volume_ft3 * ach) / 60

/-- The outcome of one invocation of `calculate_cooling_load`: the returned
value (or propagated library error), the ordered psychrolib call trace, and
the debug log records emitted. -/
structure RunResult (ε : Type) where
  result : Except ε ℤ
  calls : List PsyCall
  logs : List LogMsg

/-- Line-by-line embedding of `calculate_cooling_load(flow_cfm, t1, rh1, t2,
rh2, logger)`.  Each psychrolib call is recorded in `calls` (starting with the
`SetUnitSystem(SI)` mutation the function performs first); each
`logger.debug` is recorded in `logs`; a library failure aborts the run with
that error. -/
def calculate_cooling_load_run (lib : Psychrolib ε)
    (flow_cfm t1 rh1 t2 rh2 : ℚ) (logger : Logger) : RunResult ε :=
  let calls0 := [PsyCall.setUnitSystem UnitSystem.SI]
  let flow_m3s := flow_cfm * 0.000471947
  let logs1 := logger.debug (LogMsg.volumetricFlow flow_m3s)
  let calls1 := calls0 ++ [PsyCall.getHumRatioFromRelHum t1 rh1 101325]
  match lib.GetHumRatioFromRelHum t1 rh1 101325 with
  | .error e => ⟨.error e, calls1, logs1⟩
  | .ok w1 =>
    let calls2 := calls1 ++ [PsyCall.getMoistAirDensity t1 w1 101325]
    match lib.GetMoistAirDensity t1 w1 101325 with
    | .error e => ⟨.error e, calls2, logs1⟩
    | .ok density =>
      let logs2 := logs1 ++ logger.debug (LogMsg.airDensity density)
      let mass_flow := flow_m3s * density
      let logs3 := logs2 ++ logger.debug (LogMsg.massFlow mass_flow)
      let calls3 := calls2 ++ [PsyCall.getMoistAirEnthalpy t1 w1]
      match lib.GetMoistAirEnthalpy t1 w1 with
      | .error e => ⟨.error e, calls3, logs3⟩
      | .ok h1 =>
        let calls4 := calls3 ++ [PsyCall.getHumRatioFromRelHum t2 rh2 101325]
        match lib.GetHumRatioFromRelHum t2 rh2 101325 with
        | .error e => ⟨.error e, calls4, logs3⟩
        | .ok w2 =>
          let calls5 := calls4 ++ [PsyCall.getMoistAirEnthalpy t2 w2]
          match lib.GetMoistAirEnthalpy t2 w2 with
          | .error e => ⟨.error e, calls5, logs3⟩
          | .ok h2 =>
            let logs4 := logs3 ++ logger.debug (LogMsg.initialEnthalpy h1)
              ++ logger.debug (LogMsg.finalEnthalpy h2)
              ++ logger.debug (LogMsg.enthalpyDiff (h1 - h2))
            let cooling_load_kw := mass_flow * (h1 - h2) / 1000
            let logs5 := logs4 ++ logger.debug (LogMsg.coolingLoadKw cooling_load_kw)
            let cooling_load_btu := cooling_load_kw * 3412.142
            let water_removal_kg_s := mass_flow * (w1 - w2)
            let water_removal_kg_hr := water_removal_kg_s * 3600
            let logs6 := logs5 ++ logger.debug (LogMsg.waterRemoval water_removal_kg_hr)
            ⟨.ok (pyRound cooling_load_btu), calls5, logs6⟩

/-- The value `calculate_cooling_load` returns to its caller. -/
def calculate_cooling_load (lib : Psychrolib ε)
    (flow_cfm t1 rh1 t2 rh2 : ℚ) (logger : Logger) : Except ε ℤ :=
  (calculate_cooling_load_run lib flow_cfm t1 rh1 t2 rh2 logger).result

/-- `main` reports `load / 12000` tons, where `load` is the integer returned
by `calculate_cooling_load` (Python true division). -/
def cooling_tons (load : ℤ) : ℚ :=
  (load : ℚ) / 12000

/-- Recognizer for the `SetUnitSystem` global mutation in a call trace. -/
def isSetUnitSystem : PsyCall → Bool
  | .setUnitSystem _ => true
  | _ => false

/-- Number of `SetUnitSystem` mutations occurring in a call trace. -/
def countSetUnit (l : List PsyCall) : ℕ :=
  (l.filter isSetUnitSystem).length

/-- The logger produced by `setup_logger(True)` (`DEBUG_MODE = True` in `main`). -/
def dbgLogger : Logger := ⟨true⟩

/-- A concrete stand-in property library for evaluating the calculator on
closed inputs: humidity ratio echoes the relative humidity, density echoes
the dry-bulb temperature (so two states at different temperatures have
different densities, as for real moist air), enthalpy echoes the
temperature. -/
def demoLib : Psychrolib Unit :=
  ⟨fun _ rh _ => .ok rh, fun t _ _ => .ok t, fun t _ => .ok t⟩

/-- A concrete stand-in property library whose density is the same at every
state (used where equal densities are required). -/
def constDensityLib : Psychrolib Unit :=
  ⟨fun _ rh _ => .ok rh, fun _ _ _ => .ok 1, fun t _ => .ok t⟩

/-- A concrete property library that fails every call with error code 7. -/
def failLib : Psychrolib ℕ :=
  ⟨fun _ _ _ => .error 7, fun _ _ _ => .error 7, fun _ _ => .error 7⟩

/-! ### Helper lemmas -/

theorem pyRound_of_bounds (q : ℚ) (n : ℤ) (hl : (n : ℚ) ≤ q) (hu : q < n + 1/2) :
    pyRound q = n := by
  have hf : ⌊q⌋ = n := Int.floor_eq_iff.mpr ⟨hl, by linarith⟩
  have hfr : Int.fract q < 1/2 := by
    rw [Int.fract, hf]; linarith
  rw [pyRound, if_pos hfr, hf]

theorem pyRound_up_of_bounds (q : ℚ) (n : ℤ) (hl : (n : ℚ) - 1/2 < q) (hu : q < n) :
    pyRound q = n := by
  have hf : ⌊q⌋ = n - 1 := Int.floor_eq_iff.mpr ⟨by push_cast; linarith, by push_cast; linarith⟩
  have h1 : ¬ Int.fract q < 1/2 := by rw [Int.fract, hf]; push_cast; linarith
  have h2 : 1/2 < Int.fract q := by rw [Int.fract, hf]; push_cast; linarith
  rw [pyRound, if_neg h1, if_pos h2]; omega

theorem pyRound_zero : pyRound 0 = 0 := by
  rw [pyRound]; norm_num

theorem pyRound_neg (q : ℚ) : pyRound (-q) = -pyRound q := by
  by_cases h0 : Int.fract q = 0
  · have hq : (⌊q⌋ : ℚ) = q := by rw [Int.fract] at h0; linarith
    have hnegf : Int.fract (-q) = 0 := Int.fract_neg_eq_zero.mpr h0
    have hfn : ⌊-q⌋ = -⌊q⌋ := by
      have : -q = ((-⌊q⌋ : ℤ) : ℚ) := by push_cast; linarith
      rw [this, Int.floor_intCast]
    rw [pyRound, pyRound, if_pos, if_pos, hfn]
    · rw [h0]; norm_num
    · rw [hnegf]; norm_num
  · have hfneg : Int.fract (-q) = 1 - Int.fract q := Int.fract_neg h0
    have hfloorneg : ⌊-q⌋ = -⌊q⌋ - 1 := by
      have h1 : Int.fract (-q) = -q - ⌊-q⌋ := rfl
      have h2 : Int.fract q = q - ⌊q⌋ := rfl
      have : (⌊-q⌋ : ℚ) = -⌊q⌋ - 1 := by rw [h1, h2] at hfneg; linarith
      exact_mod_cast this
    have h01 : 0 < Int.fract q := lt_of_le_of_ne (Int.fract_nonneg q) (Ne.symm h0)
    have hlt1 : Int.fract q < 1 := Int.fract_lt_one q
    rcases lt_trichotomy (Int.fract q) (1/2) with hlt | heq | hgt
    · have hn1 : ¬ Int.fract (-q) < 1/2 := by rw [hfneg]; linarith
      have hn2 : 1/2 < Int.fract (-q) := by rw [hfneg]; linarith
      rw [pyRound, pyRound, if_neg hn1, if_pos hn2, if_pos hlt, hfloorneg]; ring
    · have hn1 : ¬ Int.fract (-q) < 1/2 := by rw [hfneg, heq]; norm_num
      have hn2 : ¬ (1/2 : ℚ) < Int.fract (-q) := by rw [hfneg, heq]; norm_num
      have hq1 : ¬ Int.fract q < 1/2 := by rw [heq]; norm_num
      have hq2 : ¬ (1/2 : ℚ) < Int.fract q := by rw [heq]; norm_num
      rw [pyRound, pyRound, if_neg hn1, if_neg hn2, if_neg hq1, if_neg hq2, hfloorneg]
      by_cases hev : ⌊q⌋ % 2 = 0
      · rw [if_pos hev, if_neg (by omega)]; omega
      · rw [if_neg hev, if_pos (by omega)]; omega
    · have hn1 : Int.fract (-q) < 1/2 := by rw [hfneg]; linarith
      rw [pyRound, pyRound, if_pos hn1, if_neg (by linarith), if_pos hgt, hfloorneg]; ring

theorem calculate_cooling_load_eq_ok {ε : Type} (lib : Psychrolib ε)
    (flow_cfm t1 rh1 t2 rh2 : ℚ) (logger : Logger) (w1 density e1 w2 e2 : ℚ)
    (hw1 : lib.GetHumRatioFromRelHum t1 rh1 101325 = .ok w1)
    (hd : lib.GetMoistAirDensity t1 w1 101325 = .ok density)
    (he1 : lib.GetMoistAirEnthalpy t1 w1 = .ok e1)
    (hw2 : lib.GetHumRatioFromRelHum t2 rh2 101325 = .ok w2)
    (he2 : lib.GetMoistAirEnthalpy t2 w2 = .ok e2) :
    calculate_cooling_load lib flow_cfm t1 rh1 t2 rh2 logger =
      .ok (pyRound (flow_cfm * 0.000471947 * density * (e1 - e2) / 1000 * 3412.142)) := by
  simp [calculate_cooling_load, calculate_cooling_load_run, hw1, hd, he1, hw2, he2]

/-! ### Claims -/

/-- C1: for every flow_cfm, t1, rh1, t2, rh2 on which the property library
succeeds, `calculate_cooling_load` returns
round(mass_flow * (h1 - h2) / 1000 * 3412.142) with
flow_m3s = flow_cfm * 0.000471947, w1 = HumRatio(t1, rh1, 101325),
density = Density(t1, w1, 101325), mass_flow = flow_m3s * density,
h1 = Enthalpy(t1, w1), w2 = HumRatio(t2, rh2, 101325),
h2 = Enthalpy(t2, w2), the BTU/hr value rounded to the nearest integer
(Python rounding, ties to even). -/
theorem claim_C1 {ε : Type} (lib : Psychrolib ε)
    (flow_cfm t1 rh1 t2 rh2 : ℚ) (logger : Logger) (w1 density e1 w2 e2 : ℚ)
    (hw1 : lib.GetHumRatioFromRelHum t1 rh1 101325 = .ok w1)
    (hd : lib.GetMoistAirDensity t1 w1 101325 = .ok density)
    (he1 : lib.GetMoistAirEnthalpy t1 w1 = .ok e1)
    (hw2 : lib.GetHumRatioFromRelHum t2 rh2 101325 = .ok w2)
    (he2 : lib.GetMoistAirEnthalpy t2 w2 = .ok e2) :
    calculate_cooling_load lib flow_cfm t1 rh1 t2 rh2 logger =
      .ok (pyRound (flow_cfm * 0.000471947 * density * (e1 - e2) / 1000 * 3412.142)) :=
  calculate_cooling_load_eq_ok lib flow_cfm t1 rh1 t2 rh2 logger w1 density e1 w2 e2
    hw1 hd he1 hw2 he2

theorem claim_C1_witness :
    calculate_cooling_load demoLib 160 43 (17/20) 25 (11/20) dbgLogger =
      .ok (pyRound (160 * 0.000471947 * 43 * (43 - 25) / 1000 * 3412.142)) :=
  claim_C1 demoLib 160 43 (17/20) 25 (11/20) dbgLogger (17/20) 43 43 (11/20) 25
    rfl rfl rfl rfl rfl

/-- C2: for every positive volume and non-negative ach,
`calculate_cfm_from_room` returns volume * ach / 60; in particular for a
20 by 15 by 8 ft room at 4 ACH the result is exactly 160. -/
theorem claim_C2 (volume_ft3 ach : ℚ) (hv : 0 < volume_ft3) (hach : 0 ≤ ach) :
    calculate_cfm_from_room volume_ft3 ach = volume_ft3 * ach / 60 ∧
    calculate_cfm_from_room (20 * 15 * 8) 4 = 160 := by
  constructor
  · rfl
  · unfold calculate_cfm_from_room; norm_num

theorem claim_C2_witness :
    calculate_cfm_from_room 2400 4 = 2400 * 4 / 60 ∧
    calculate_cfm_from_room (20 * 15 * 8) 4 = 160 :=
  claim_C2 2400 4 (by norm_num) (by norm_num)

/-- C3: for every flow_cfm and air state (t, rh) on which the property
library succeeds, running the calculation with initial state equal to
target state returns load exactly 0, and the logged enthalpy difference
(h1 - h2) and water-removal rate are both exactly 0. -/
theorem claim_C3 {ε : Type} (lib : Psychrolib ε) (flow_cfm t rh : ℚ) (w d e : ℚ)
    (hw : lib.GetHumRatioFromRelHum t rh 101325 = .ok w)
    (hd : lib.GetMoistAirDensity t w 101325 = .ok d)
    (he : lib.GetMoistAirEnthalpy t w = .ok e) :
    calculate_cooling_load lib flow_cfm t rh t rh dbgLogger = .ok 0 ∧
    LogMsg.enthalpyDiff 0 ∈ (calculate_cooling_load_run lib flow_cfm t rh t rh dbgLogger).logs ∧
    LogMsg.waterRemoval 0 ∈ (calculate_cooling_load_run lib flow_cfm t rh t rh dbgLogger).logs := by
  refine ⟨?_, ?_, ?_⟩ <;>
    simp [calculate_cooling_load, calculate_cooling_load_run, hw, hd, he,
      dbgLogger, Logger.debug, sub_self, pyRound_zero]

theorem claim_C3_witness :
    calculate_cooling_load demoLib 160 25 (1/2) 25 (1/2) dbgLogger = .ok 0 ∧
    LogMsg.enthalpyDiff 0 ∈
      (calculate_cooling_load_run demoLib 160 25 (1/2) 25 (1/2) dbgLogger).logs ∧
    LogMsg.waterRemoval 0 ∈
      (calculate_cooling_load_run demoLib 160 25 (1/2) 25 (1/2) dbgLogger).logs :=
  claim_C3 demoLib 160 25 (1/2) (1/2) 25 25 rfl rfl rfl

/-- C4 counterexample: the mass flow is NOT unchanged by swapping initial
and target state — the source computes the density (hence the mass flow)
from the initial state only — so the two swapped runs can return values of
different absolute value.  With a property library whose density differs
between the two states (as real moist-air density differs with
temperature), states A = (2, 0) and B = (1, 0) at 1000 CFM give load 3 one
way and -2 the other. -/
theorem claim_C4_counterexample :
    calculate_cooling_load demoLib 1000 2 0 1 0 dbgLogger = .ok 3 ∧
    calculate_cooling_load demoLib 1000 1 0 2 0 dbgLogger = .ok (-2) ∧
    (3 : ℤ).natAbs ≠ ((-2 : ℤ)).natAbs := by
  refine ⟨?_, ?_, by decide⟩
  · rw [calculate_cooling_load_eq_ok demoLib 1000 2 0 1 0 dbgLogger 0 2 2 0 1
      rfl rfl rfl rfl rfl]
    rw [pyRound_of_bounds _ 3 (by norm_num) (by norm_num)]
  · rw [calculate_cooling_load_eq_ok demoLib 1000 1 0 2 0 dbgLogger 0 1 1 0 2
      rfl rfl rfl rfl rfl]
    rw [pyRound_of_bounds _ (-2) (by norm_num) (by norm_num)]

/-- C4 (amended): swapping initial and target flips the sign of the
enthalpy difference, but the mass flow is recomputed from the new initial
state density; when the two states happen to have equal moist-air density
the swapped run returns exactly the negated load (hence equal absolute
value and opposite sign). -/
theorem claim_C4 {ε : Type} (lib : Psychrolib ε)
    (flow_cfm tA rhA tB rhB : ℚ) (logger : Logger) (wA dA eA wB dB eB : ℚ)
    (hwA : lib.GetHumRatioFromRelHum tA rhA 101325 = .ok wA)
    (hdA : lib.GetMoistAirDensity tA wA 101325 = .ok dA)
    (heA : lib.GetMoistAirEnthalpy tA wA = .ok eA)
    (hwB : lib.GetHumRatioFromRelHum tB rhB 101325 = .ok wB)
    (hdB : lib.GetMoistAirDensity tB wB 101325 = .ok dB)
    (heB : lib.GetMoistAirEnthalpy tB wB = .ok eB)
    (hdens : dA = dB) :
    calculate_cooling_load lib flow_cfm tB rhB tA rhA logger =
      Except.map Neg.neg (calculate_cooling_load lib flow_cfm tA rhA tB rhB logger) := by
  rw [calculate_cooling_load_eq_ok lib flow_cfm tA rhA tB rhB logger wA dA eA wB eB
      hwA hdA heA hwB heB,
    calculate_cooling_load_eq_ok lib flow_cfm tB rhB tA rhA logger wB dB eB wA eA
      hwB hdB heB hwA heA]
  simp only [Except.map]
  rw [show flow_cfm * 0.000471947 * dB * (eB - eA) / 1000 * 3412.142
      = -(flow_cfm * 0.000471947 * dA * (eA - eB) / 1000 * 3412.142) by rw [hdens]; ring]
  rw [pyRound_neg]

theorem claim_C4_witness :
    calculate_cooling_load constDensityLib 1000 1 0 2 0 dbgLogger =
      Except.map Neg.neg (calculate_cooling_load constDensityLib 1000 2 0 1 0 dbgLogger) :=
  claim_C4 constDensityLib 1000 2 0 1 0 dbgLogger 0 1 2 0 1 1
    rfl rfl rfl rfl rfl rfl rfl

/-- C5: the reported tonnage is the integer-rounded BTU/hr load divided by
12000 — `main` divides the integer returned by `calculate_cooling_load` by
12000 — not the exact unrounded BTU value divided by 12000. -/
theorem claim_C5 {ε : Type} (lib : Psychrolib ε)
    (flow_cfm t1 rh1 t2 rh2 : ℚ) (logger : Logger) (w1 density e1 w2 e2 : ℚ)
    (hw1 : lib.GetHumRatioFromRelHum t1 rh1 101325 = .ok w1)
    (hd : lib.GetMoistAirDensity t1 w1 101325 = .ok density)
    (he1 : lib.GetMoistAirEnthalpy t1 w1 = .ok e1)
    (hw2 : lib.GetHumRatioFromRelHum t2 rh2 101325 = .ok w2)
    (he2 : lib.GetMoistAirEnthalpy t2 w2 = .ok e2) :
    Except.map cooling_tons (calculate_cooling_load lib flow_cfm t1 rh1 t2 rh2 logger) =
      .ok (((pyRound (flow_cfm * 0.000471947 * density * (e1 - e2) / 1000 * 3412.142) : ℤ) : ℚ)
        / 12000) := by
  rw [calculate_cooling_load_eq_ok lib flow_cfm t1 rh1 t2 rh2 logger w1 density e1 w2 e2
    hw1 hd he1 hw2 he2]
  simp only [Except.map, cooling_tons]

theorem claim_C5_witness :
    Except.map cooling_tons (calculate_cooling_load demoLib 160 43 (17/20) 25 (11/20) dbgLogger) =
      .ok (((pyRound (160 * 0.000471947 * 43 * (43 - 25) / 1000 * 3412.142) : ℤ) : ℚ)
        / 12000) :=
  claim_C5 demoLib 160 43 (17/20) 25 (11/20) dbgLogger (17/20) 43 43 (11/20) 25
    rfl rfl rfl rfl rfl

/-- C7: whichever property-library call is the first to fail, its error is
propagated unmodified as the result of `calculate_cooling_load`, and no
partial result is returned. -/
theorem claim_C7 {ε : Type} (lib : Psychrolib ε)
    (flow_cfm t1 rh1 t2 rh2 : ℚ) (logger : Logger) (e : ε) :
    (lib.GetHumRatioFromRelHum t1 rh1 101325 = .error e →
      calculate_cooling_load lib flow_cfm t1 rh1 t2 rh2 logger = .error e) ∧
    (∀ w1, lib.GetHumRatioFromRelHum t1 rh1 101325 = .ok w1 →
      lib.GetMoistAirDensity t1 w1 101325 = .error e →
      calculate_cooling_load lib flow_cfm t1 rh1 t2 rh2 logger = .error e) ∧
    (∀ w1 d, lib.GetHumRatioFromRelHum t1 rh1 101325 = .ok w1 →
      lib.GetMoistAirDensity t1 w1 101325 = .ok d →
      lib.GetMoistAirEnthalpy t1 w1 = .error e →
      calculate_cooling_load lib flow_cfm t1 rh1 t2 rh2 logger = .error e) ∧
    (∀ w1 d e1, lib.GetHumRatioFromRelHum t1 rh1 101325 = .ok w1 →
      lib.GetMoistAirDensity t1 w1 101325 = .ok d →
      lib.GetMoistAirEnthalpy t1 w1 = .ok e1 →
      lib.GetHumRatioFromRelHum t2 rh2 101325 = .error e →
      calculate_cooling_load lib flow_cfm t1 rh1 t2 rh2 logger = .error e) ∧
    (∀ w1 d e1 w2, lib.GetHumRatioFromRelHum t1 rh1 101325 = .ok w1 →
      lib.GetMoistAirDensity t1 w1 101325 = .ok d →
      lib.GetMoistAirEnthalpy t1 w1 = .ok e1 →
      lib.GetHumRatioFromRelHum t2 rh2 101325 = .ok w2 →
      lib.GetMoistAirEnthalpy t2 w2 = .error e →
      calculate_cooling_load lib flow_cfm t1 rh1 t2 rh2 logger = .error e) := by
  refine ⟨?_, ?_, ?_, ?_, ?_⟩ <;> intros <;>
    simp [calculate_cooling_load, calculate_cooling_load_run, *]

theorem claim_C7_witness :
    calculate_cooling_load failLib 160 43 1 25 1 dbgLogger = .error 7 :=
  (claim_C7 failLib 160 43 1 25 1 dbgLogger 7).1 rfl

/-- C6 counterexample: the unit-system selector is NOT set only once before
any calculation — `calculate_cooling_load` performs the `SetUnitSystem(SI)`
mutation at the start of every invocation, so two consecutive invocations
perform it twice (each one exactly once, inside the invocation). -/
theorem claim_C6_counterexample :
    countSetUnit ((calculate_cooling_load_run demoLib 160 43 1 25 1 dbgLogger).calls ++
      (calculate_cooling_load_run demoLib 160 30 1 20 1 dbgLogger).calls) = 2 ∧
    countSetUnit (calculate_cooling_load_run demoLib 160 30 1 20 1 dbgLogger).calls = 1 := by
  constructor <;> rfl

/-- C6 (amended): every invocation of `calculate_cooling_load` performs the
unit-system mutation itself — its library-call trace starts with
`SetUnitSystem(SI)` and contains that mutation exactly once — so the
global configuration is repeated on every calculation rather than done
once before the first. -/
theorem claim_C6 {ε : Type} (lib : Psychrolib ε)
    (flow_cfm t1 rh1 t2 rh2 : ℚ) (logger : Logger) :
    (calculate_cooling_load_run lib flow_cfm t1 rh1 t2 rh2 logger).calls.head? =
      some (PsyCall.setUnitSystem UnitSystem.SI) ∧
    countSetUnit (calculate_cooling_load_run lib flow_cfm t1 rh1 t2 rh2 logger).calls = 1 := by
  unfold calculate_cooling_load_run
  cases h1 : lib.GetHumRatioFromRelHum t1 rh1 101325 with
  | error e => simp [h1, countSetUnit, isSetUnitSystem]
  | ok w1 =>
    cases h2 : lib.GetMoistAirDensity t1 w1 101325 with
    | error e => simp [h1, h2, countSetUnit, isSetUnitSystem]
    | ok d =>
      cases h3 : lib.GetMoistAirEnthalpy t1 w1 with
      | error e => simp [h1, h2, h3, countSetUnit, isSetUnitSystem]
      | ok e1 =>
        cases h4 : lib.GetHumRatioFromRelHum t2 rh2 101325 with
        | error e => simp [h1, h2, h3, h4, countSetUnit, isSetUnitSystem]
        | ok w2 =>
          cases h5 : lib.GetMoistAirEnthalpy t2 w2 with
          | error e => simp [h1, h2, h3, h4, h5, countSetUnit, isSetUnitSystem]
          | ok e2 => simp [h1, h2, h3, h4, h5, countSetUnit, isSetUnitSystem]

/-- C8: `calculate_cfm_from_room` is monotonically increasing in both the
volume and the air-change rate: for positive volume and non-negative ach,
enlarging either argument does not decrease the result. -/
theorem claim_C8 (volume_ft3 volume_big ach ach_big : ℚ)
    (hv : 0 < volume_ft3) (hach : 0 ≤ ach)
    (hvle : volume_ft3 ≤ volume_big) (hachle : ach ≤ ach_big) :
    calculate_cfm_from_room volume_ft3 ach ≤ calculate_cfm_from_room volume_big ach ∧
    calculate_cfm_from_room volume_ft3 ach ≤ calculate_cfm_from_room volume_ft3 ach_big := by
  unfold calculate_cfm_from_room
  constructor
  · have h := mul_le_mul_of_nonneg_right hvle hach
    linarith
  · have h := mul_le_mul_of_nonneg_left hachle (le_of_lt hv)
    linarith

theorem claim_C8_witness :
    calculate_cfm_from_room 2400 4 ≤ calculate_cfm_from_room 3000 4 ∧
    calculate_cfm_from_room 2400 4 ≤ calculate_cfm_from_room 2400 6 :=
  claim_C8 2400 3000 4 6 (by norm_num) (by norm_num) (by norm_num) (by norm_num)

/-- C9: for every volume v, `calculate_cfm_from_room v 0 = 0`. -/
theorem claim_C9 (volume_ft3 : ℚ) : calculate_cfm_from_room volume_ft3 0 = 0 := by
  unfold calculate_cfm_from_room
  simp

/-- C10: `calculate_cooling_load` is deterministic in its five numeric
inputs — the returned value and the library-call trace do not depend on the
logger argument or its configuration, which influence only the emitted
diagnostics. -/
theorem claim_C10 {ε : Type} (lib : Psychrolib ε)
    (flow_cfm t1 rh1 t2 rh2 : ℚ) (lgA lgB : Logger) :
    calculate_cooling_load lib flow_cfm t1 rh1 t2 rh2 lgA =
      calculate_cooling_load lib flow_cfm t1 rh1 t2 rh2 lgB ∧
    (calculate_cooling_load_run lib flow_cfm t1 rh1 t2 rh2 lgA).calls =
      (calculate_cooling_load_run lib flow_cfm t1 rh1 t2 rh2 lgB).calls := by
  unfold calculate_cooling_load calculate_cooling_load_run
  cases h1 : lib.GetHumRatioFromRelHum t1 rh1 101325 with
  | error e => simp [h1]
  | ok w1 =>
    cases h2 : lib.GetMoistAirDensity t1 w1 101325 with
    | error e => simp [h1, h2]
    | ok d =>
      cases h3 : lib.GetMoistAirEnthalpy t1 w1 with
      | error e => simp [h1, h2, h3]
      | ok e1 =>
        cases h4 : lib.GetHumRatioFromRelHum t2 rh2 101325 with
        | error e => simp [h1, h2, h3, h4]
        | ok w2 =>
          cases h5 : lib.GetMoistAirEnthalpy t2 w2 with
          | error e => simp [h1, h2, h3, h4, h5]
          | ok e2 => simp [h1, h2, h3, h4, h5]
